import Mathlib

/-!
Verification development for the newbv backend slice: a shallow embedding of
the two service classes (`CpcValidationService`, the contactability gate, and
`ContactsService`, the contact directory) together with theorems settling the
specification claims about them.

Conventions of the embedding:
* JavaScript strings are Lean `String`s; optional/`undefined` values are
  `Option`; `null`-able database columns are `Option` as well.
* Timestamps (`new Date()`, Prisma `DateTime`) are abstract ticks (`Nat`)
  supplied by the caller as a `now` parameter.
* The HTTP world is an oracle `Net : CpcRequest → ApiOutcome`; each gate
  operation returns its result value paired with the list of requests it
  issued, in order, so that call-count/ordering claims are statable.
* The Prisma store is a `Db` record of contact and conversation rows;
  Prisma calls (`findUnique`, `findFirst`, `update`, `updateMany`,
  `findMany` with where/orderBy) are translated as explicit list operations.
-/

/-- JavaScript `String.prototype.startsWith`, on Lean strings. -/
def jsStartsWith (s pre : String) : Bool :=
  pre.toList.isPrefixOf s.toList

/-- Substring test on character lists (JS `includes` / Prisma `contains`). -/
def isInfixB : List Char → List Char → Bool
  | needle, [] => needle.isEmpty
  | needle, h :: t => needle.isPrefixOf (h :: t) || isInfixB needle t

/-- Prisma string `contains` filter: `needle` occurs inside `hay`. -/
def containsSub (hay needle : String) : Bool :=
  isInfixB needle.toList hay.toList

/-- JavaScript `String.prototype.trim`: strip whitespace from both ends. -/
def jsTrim (s : String) : String :=
  String.mk (((s.toList.dropWhile Char.isWhitespace).reverse.dropWhile
    Char.isWhitespace).reverse)

/-- Hexadecimal digit character (upper case), for percent-encoding. -/
def hexDigitChar (n : Nat) : Char :=
  if n < 10 then Char.ofNat (48 + n) else Char.ofNat (65 + n - 10)

/-- UTF-8 bytes of a Unicode code point, as natural numbers below 256. -/
def utf8Bytes (n : Nat) : List Nat :=
  if n < 128 then [n]
  else if n < 2048 then [192 + n / 64, 128 + n % 64]
  else if n < 65536 then [224 + n / 4096, 128 + (n / 64) % 64, 128 + n % 64]
  else [240 + n / 262144, 128 + (n / 4096) % 64, 128 + (n / 64) % 64, 128 + n % 64]

/-- Characters left unescaped by ECMAScript `encodeURIComponent`. -/
def isURIUnescaped (c : Char) : Bool :=
  c.isAlpha || c.isDigit ||
    c = '-' || c = '_' || c = '.' || c = '!' || c = '~' || c = '*' ||
    c = '\'' || c = '(' || c = ')'

/-- Percent-encode one byte as `%XY`. -/
def percentByte (b : Nat) : String :=
  String.mk ['%', hexDigitChar (b / 16), hexDigitChar (b % 16)]

/-- ECMAScript `encodeURIComponent` (strict, spaces become `%20`). -/
def encodeURIComponent (s : String) : String :=
  String.join (s.toList.map fun c =>
    if isURIUnescaped c then String.singleton c
    else String.join ((utf8Bytes c.toNat).map percentByte))

/-- Partner API response shape (`CpcApiResponse` in the source). -/
structure CpcApiResponse where
  sucesso : Bool
  mensagem : String
deriving Repr, DecidableEq

/-- Result of the composite decision (`CanContactResult` in the source). -/
structure CanContactResult where
  allowed : Bool
  reason : String
deriving Repr, DecidableEq

namespace CpcValidationService

/-- Configuration captured at construction time: `apiUrl` is the
`CPC_API_URL` value (empty string when unset), `enabled` is the result of
`CPC_API_ENABLED === 'true'`. Credentials only feed the auth header and are
not modelled. -/
structure Config where
  apiUrl : String
  enabled : Bool

/-- `isEnabled()`: the enabled flag and a truthy (non-empty) base URL. -/
def isEnabled (cfg : Config) : Bool :=
  cfg.enabled && !(cfg.apiUrl == "")

/-- `formatPhoneForPartner`, step 1: `phone.replace(/\D/g, '')`. -/
def cleanPhoneStr (phone : String) : String :=
  String.mk (phone.toList.filter Char.isDigit)

/-- `formatPhoneForPartner`: strip non-digits, then drop a leading "55"
when the cleaned string starts with "55" and has more than 11 digits. -/
def formatPhoneForPartner (phone : String) : String :=
  let cleanPhone := cleanPhoneStr phone
  if jsStartsWith cleanPhone "55" = true ∧ cleanPhone.length > 11 then
    String.mk (cleanPhone.toList.drop 2)
  else
    cleanPhone

/-- A request issued to the partner API. GET query strings are modelled as
their ordered key/value pairs (the source joins them as `k=v&k=v`); the
POST body of register-acionamento is modelled by its three JSON fields. -/
inductive CpcRequest where
  | validate (baseUrl : String) (query : List (String × String))
  | check (baseUrl : String) (query : List (String × String))
  | register (baseUrl : String) (telefone contrato segmento : String)
deriving Repr, DecidableEq

/-- Is this a register-acionamento request? -/
def CpcRequest.isRegister : CpcRequest → Bool
  | .register _ _ _ _ => true
  | _ => false

/-- Is this a check-acionamento request? -/
def CpcRequest.isCheck : CpcRequest → Bool
  | .check _ _ => true
  | _ => false

/-- The three ways an axios call can fail (`AxiosError`): the server
responded with an error status (carrying the parsed body's `mensagem`
field when the body has one), the request went out but no response came
back, or the request could not be constructed locally. -/
inductive ApiFailure where
  | response (status : Nat) (mensagem : Option String)
  | request
  | config (message : String)
deriving Repr, DecidableEq

/-- Outcome of a network call: a parsed `CpcApiResponse` or a failure. -/
inductive ApiOutcome where
  | ok (data : CpcApiResponse)
  | fail (e : ApiFailure)
deriving Repr, DecidableEq

/-- The network oracle: what the partner answers to each request. -/
def Net := CpcRequest → ApiOutcome

/-- `handleApiError`: normalize any axios failure into a
`{sucesso: false, mensagem}` value (the source logs and returns; it never
rethrows). An error-status response prefers the partner's own truthy
`mensagem`, else a generic message with the status. -/
def handleApiError : ApiFailure → CpcApiResponse
  | .response status mensagem =>
      { sucesso := false,
        mensagem :=
          match mensagem with
          | some m => if m = "" then "Erro na API: " ++ toString status else m
          | none => "Erro na API: " ++ toString status }
  | .request =>
      { sucesso := false, mensagem := "API CPC indisponível - timeout" }
  | .config message =>
      { sucesso := false, mensagem := "Erro interno: " ++ message }

/-- Query-string parameters of `validateContract`: `contrato` and
`segmento` always; `telefone` only when the phone argument is truthy
(present and non-empty), formatted for the partner. -/
def validateQuery (contract segment : String) (phone : Option String) :
    List (String × String) :=
  let base := [("contrato", encodeURIComponent contract),
               ("segmento", encodeURIComponent segment)]
  match phone with
  | some p =>
      if p ≠ "" then
        base ++ [("telefone", encodeURIComponent (formatPhoneForPartner p))]
      else base
  | none => base

/-- The GET request issued by `validateContract`. -/
def validateReq (cfg : Config) (contract segment : String)
    (phone : Option String) : CpcRequest :=
  .validate cfg.apiUrl (validateQuery contract segment phone)

/-- Query-string parameters of `checkAcionamento`: `contrato`, `telefone`
(always, formatted), `segmento`. -/
def checkQuery (contract phone segment : String) : List (String × String) :=
  [("contrato", encodeURIComponent contract),
   ("telefone", encodeURIComponent (formatPhoneForPartner phone)),
   ("segmento", encodeURIComponent segment)]

/-- The GET request issued by `checkAcionamento`. -/
def checkReq (cfg : Config) (contract phone segment : String) : CpcRequest :=
  .check cfg.apiUrl (checkQuery contract phone segment)

/-- The POST request issued by `registerAcionamento`. -/
def registerReq (cfg : Config) (contract phone segment : String) : CpcRequest :=
  .register cfg.apiUrl (formatPhoneForPartner phone) contract segment

/-- `validateContract`: short-circuit to success when disabled, otherwise
issue the GET and return the parsed body, any failure normalized by
`handleApiError`. The second component is the trace of issued requests. -/
def validateContract (cfg : Config) (net : Net) (contract segment : String)
    (phone : Option String) : CpcApiResponse × List CpcRequest :=
  if !isEnabled cfg then
    ({ sucesso := true, mensagem := "CPC API desabilitada" }, [])
  else
    let req := validateReq cfg contract segment phone
    (match net req with
     | .ok data => data
     | .fail e => handleApiError e, [req])

/-- `checkAcionamento`: same shape as `validateContract`, phone always
included in the query. -/
def checkAcionamento (cfg : Config) (net : Net)
    (contract phone segment : String) : CpcApiResponse × List CpcRequest :=
  if !isEnabled cfg then
    ({ sucesso := true, mensagem := "CPC API desabilitada" }, [])
  else
    let req := checkReq cfg contract phone segment
    (match net req with
     | .ok data => data
     | .fail e => handleApiError e, [req])

/-- `registerAcionamento`: POST with JSON payload, same error handling. -/
def registerAcionamento (cfg : Config) (net : Net)
    (contract phone segment : String) : CpcApiResponse × List CpcRequest :=
  if !isEnabled cfg then
    ({ sucesso := true, mensagem := "CPC API desabilitada" }, [])
  else
    let req := registerReq cfg contract phone segment
    (match net req with
     | .ok data => data
     | .fail e => handleApiError e, [req])

/-- `canContact`: disabled short-circuit; then validate the contract and
deny with its message on failure; then check the same-day acionamento and
deny with its message on failure; otherwise allow with the fixed reason.
The trace records the issued requests in order. -/
def canContact (cfg : Config) (net : Net)
    (contract phone segment : String) : CanContactResult × List CpcRequest :=
  if !isEnabled cfg then
    ({ allowed := true, reason := "CPC API desabilitada" }, [])
  else
    let contractValidation := validateContract cfg net contract segment (some phone)
    if !contractValidation.1.sucesso then
      ({ allowed := false, reason := contractValidation.1.mensagem },
       contractValidation.2)
    else
      let acionamentoCheck := checkAcionamento cfg net contract phone segment
      if !acionamentoCheck.1.sucesso then
        ({ allowed := false, reason := acionamentoCheck.1.mensagem },
         contractValidation.2 ++ acionamentoCheck.2)
      else
        ({ allowed := true, reason := "Cliente pode ser acionado" },
         contractValidation.2 ++ acionamentoCheck.2)

end CpcValidationService

/-- A row of the `Contact` table. Modelled from the spec: the Prisma schema
is not under src; fields and defaults follow spec §3 (phone is the natural
key; `isCPC` defaults false, `lastCPCAt` null, `isNameManual` false). -/
structure Contact where
  id : Nat
  phone : String
  name : Option String
  cpf : Option String
  segment : Option Int
  isCPC : Bool
  lastCPCAt : Option Nat
  isNameManual : Bool
  createdAt : Nat
deriving Repr, DecidableEq

/-- A row of the `Conversation` table (only the fields the directory
touches: its phone join key and the denormalized display name). -/
structure Conversation where
  id : Nat
  contactPhone : String
  contactName : String
deriving Repr, DecidableEq

/-- The relational store: contact rows, conversation rows, and the next
generated contact id. -/
structure Db where
  contacts : List Contact
  conversations : List Conversation
  nextId : Nat
deriving Repr, DecidableEq

/-- Modelled from the spec: `CreateContactDto` is not under src; per spec
§4.1 the create input carries the required phone plus optional
name/cpf/segment. -/
structure CreateContactDto where
  phone : String
  name : Option String
  cpf : Option String
  segment : Option Int
deriving Repr, DecidableEq

/-- Modelled from the spec: `UpdateContactDto` is not under src; it is the
partial patch the service code reads (`name`, `isCPC` are dereferenced in
`contacts.service.ts`; cpf/segment per spec §3). `none` = field absent. -/
structure UpdateContactDto where
  name : Option String
  cpf : Option String
  segment : Option Int
  isCPC : Option Bool
deriving Repr, DecidableEq

/-- The data object handed to `prisma.contact.update`: the dto fields plus
the two fields the service injects dynamically (`lastCPCAt`,
`isNameManual`). For `lastCPCAt`, `some v` means the column is set to `v`
(which may itself be `none`, i.e. SQL null). -/
structure ContactPatch where
  phone : Option String
  name : Option String
  cpf : Option String
  segment : Option Int
  isCPC : Option Bool
  lastCPCAt : Option (Option Nat)
  isNameManual : Option Bool
deriving Repr, DecidableEq

/-- Prisma `update` semantics on one row: fields present in the patch
overwrite the column, absent fields leave it unchanged. -/
def applyPatch (p : ContactPatch) (c : Contact) : Contact :=
  { id := c.id
    phone := p.phone.getD c.phone
    name := p.name.or c.name
    cpf := p.cpf.or c.cpf
    segment := p.segment.or c.segment
    isCPC := p.isCPC.getD c.isCPC
    lastCPCAt := p.lastCPCAt.getD c.lastCPCAt
    isNameManual := p.isNameManual.getD c.isNameManual
    createdAt := c.createdAt }

/-- The patch carried by an `UpdateContactDto` before any dynamic field
injection. -/
def updatePatch (dto : UpdateContactDto) : ContactPatch :=
  { phone := none, name := dto.name, cpf := dto.cpf, segment := dto.segment,
    isCPC := dto.isCPC, lastCPCAt := none, isNameManual := none }

/-- The patch carried by a `CreateContactDto` when `create` falls back to
updating an existing row (`data: createContactDto`). -/
def createPatch (dto : CreateContactDto) : ContactPatch :=
  { phone := some dto.phone, name := dto.name, cpf := dto.cpf,
    segment := dto.segment, isCPC := none, lastCPCAt := none,
    isNameManual := none }

/-- `prisma.contact.findUnique({ where: { phone } })`. -/
def contactFindUnique (db : Db) (phone : String) : Option Contact :=
  db.contacts.find? (fun c => c.phone == phone)

/-- `prisma.contact.findFirst({ where: { phone } })`. -/
def contactFindFirst (db : Db) (phone : String) : Option Contact :=
  db.contacts.find? (fun c => c.phone == phone)

/-- `prisma.contact.findUnique({ where: { id } })`. -/
def contactFindById (db : Db) (id : Nat) : Option Contact :=
  db.contacts.find? (fun c => c.id == id)

/-- `prisma.contact.update({ where: { id }, data })`. -/
def contactUpdate (db : Db) (id : Nat) (p : ContactPatch) : Db :=
  { db with contacts :=
      db.contacts.map (fun c => if c.id == id then applyPatch p c else c) }

/-- `prisma.conversation.updateMany`: rewrite `contactName` to `newName`
on every conversation whose `contactPhone` matches, and — when
`whereName` is given — whose current `contactName` matches too. -/
def conversationUpdateMany (convs : List Conversation) (wherePhone : String)
    (whereName : Option String) (newName : String) : List Conversation :=
  convs.map (fun cv =>
    if cv.contactPhone == wherePhone &&
        (match whereName with
         | some nm => cv.contactName == nm
         | none => true) then
      { cv with contactName := newName }
    else cv)

/-- Typed service errors (`NotFoundException` carrying its message). -/
inductive ServiceError where
  | notFound (message : String)
deriving Repr, DecidableEq

instance instDecEqExcept {ε α : Type} [DecidableEq ε] [DecidableEq α] :
    DecidableEq (Except ε α)
  | .error e, .error f => decidable_of_iff (e = f) (by simp)
  | .error _, .ok _ => isFalse (fun h => Except.noConfusion h)
  | .ok _, .error _ => isFalse (fun h => Except.noConfusion h)
  | .ok x, .ok y => decidable_of_iff (x = y) (by simp)

namespace ContactsService

/-- `create`: upsert by phone. If a contact with the dto's phone exists,
update it with the dto's fields and rewrite the placeholder name
"Desconhecido" on that phone's conversations when the dto carries a
truthy, non-blank name; otherwise insert a new row (id generated,
`createdAt := now`, CPC fields at their defaults) and do the same
placeholder rewrite. Returns the resulting contact and the new store. -/
def create (db : Db) (dto : CreateContactDto) (now : Nat) : Contact × Db :=
  match contactFindUnique db dto.phone with
  | some existingContact =>
      let updated := applyPatch (createPatch dto) existingContact
      let db1 := contactUpdate db existingContact.id (createPatch dto)
      let db2 :=
        match dto.name with
        | some n =>
            if n ≠ "" ∧ jsTrim n ≠ "" then
              { db1 with conversations :=
                  (conversationUpdateMany db1.conversations existingContact.phone
                    (some "Desconhecido") n) }
            else db1
        | none => db1
      (updated, db2)
  | none =>
      let contact : Contact :=
        { id := db.nextId, phone := dto.phone, name := dto.name,
          cpf := dto.cpf, segment := dto.segment, isCPC := false,
          lastCPCAt := none, isNameManual := false, createdAt := now }
      let db1 := { db with contacts := db.contacts ++ [contact],
                           nextId := db.nextId + 1 }
      let db2 :=
        match dto.name with
        | some n =>
            if n ≠ "" ∧ jsTrim n ≠ "" then
              { db1 with conversations :=
                  (conversationUpdateMany db1.conversations contact.phone
                    (some "Desconhecido") n) }
            else db1
        | none => db1
      (contact, db2)

/-- The `where` clause `findAll` builds: the OR search block is spread in
only when `search` is truthy (non-empty), the segment equality only when
`segment` is truthy (non-zero) — JavaScript `&&` spreading. -/
def findAllWhere (search : Option String) (segment : Option Int)
    (c : Contact) : Bool :=
  (match search with
   | some s =>
       if s = "" then true
       else
         (match c.name with
          | some n => containsSub n.toLower s.toLower
          | none => false) ||
         containsSub c.phone s ||
         (match c.cpf with
          | some x => containsSub x s
          | none => false)
   | none => true) &&
  (match segment with
   | some z => if z = 0 then true else c.segment == some z
   | none => true)

/-- Ordering relation of `orderBy: { createdAt: 'desc' }`. -/
def createdDesc (a b : Contact) : Prop :=
  b.createdAt ≤ a.createdAt

instance : DecidableRel createdDesc := fun _ _ => Nat.decLe _ _

instance : IsTotal Contact createdDesc :=
  ⟨fun a b => Nat.le_total b.createdAt a.createdAt⟩

instance : IsTrans Contact createdDesc :=
  ⟨fun _ _ _ hab hbc => Nat.le_trans hbc hab⟩

/-- `findAll`: `prisma.contact.findMany` with the spread-built where
clause and descending creation-time order. -/
def findAll (db : Db) (search : Option String) (segment : Option Int) :
    List Contact :=
  List.insertionSort createdDesc (db.contacts.filter (findAllWhere search segment))

/-- `findOne`: lookup by id, `NotFoundException` when absent. -/
def findOne (db : Db) (id : Nat) : Except ServiceError Contact :=
  match contactFindById db id with
  | some contact => .ok contact
  | none =>
      .error (.notFound ("Contato com ID " ++ toString id ++ " não encontrado"))

/-- `findByPhone`: `findFirst` by phone, no error when absent. -/
def findByPhone (db : Db) (phone : String) : Option Contact :=
  contactFindFirst db phone

/-- `update` (by id): NotFound when the id is absent; otherwise apply the
dto as-is, and when the dto carries a name different from the stored one,
rewrite `contactName` on every conversation with the contact's phone. -/
def update (db : Db) (id : Nat) (dto : UpdateContactDto) :
    Except ServiceError (Contact × Db) :=
  match contactFindById db id with
  | none =>
      .error (.notFound ("Contato com ID " ++ toString id ++ " não encontrado"))
  | some contact =>
      let updatedContact := applyPatch (updatePatch dto) contact
      let db1 := contactUpdate db id (updatePatch dto)
      let db2 :=
        match dto.name with
        | some n =>
            if contact.name ≠ some n then
              { db1 with conversations :=
                  (conversationUpdateMany db1.conversations contact.phone none n) }
            else db1
        | none => db1
      .ok (updatedContact, db2)

/-- `updateByPhone`: NotFound when no contact has the phone; otherwise
inject `lastCPCAt` (stamped with `now` when the dto sets `isCPC` true,
cleared to null when it sets it false) and `isNameManual := true` when the
dto carries a changed name, apply the patch, and propagate a changed name
to every conversation with that phone. -/
def updateByPhone (db : Db) (phone : String) (dto : UpdateContactDto)
    (now : Nat) : Except ServiceError (Contact × Db) :=
  match findByPhone db phone with
  | none =>
      .error (.notFound ("Contato com telefone " ++ phone ++ " não encontrado"))
  | some contact =>
      let p0 := updatePatch dto
      let p1 :=
        match dto.isCPC with
        | some true => { p0 with lastCPCAt := some (some now) }
        | some false => { p0 with lastCPCAt := some none }
        | none => p0
      let nameChanged :=
        match dto.name with
        | some n => decide (contact.name ≠ some n)
        | none => false
      let p2 := if nameChanged then { p1 with isNameManual := some true } else p1
      let updatedContact := applyPatch p2 contact
      let db1 := contactUpdate db contact.id p2
      let db2 :=
        if nameChanged then
          match dto.name with
          | some n =>
              { db1 with conversations :=
                  (conversationUpdateMany db1.conversations phone none n) }
          | none => db1
        else db1
      .ok (updatedContact, db2)

end ContactsService

/-! Concrete fixtures used by witnesses and counterexamples. -/

/-- A live gate configuration. -/
def cfgLive : CpcValidationService.Config := { apiUrl := "http://api", enabled := true }

/-- A gate configuration with the enabled flag off. -/
def cfgOff : CpcValidationService.Config := { apiUrl := "http://api", enabled := false }

/-- A partner that rejects every contract validation and accepts the rest. -/
def netDenyContract : CpcValidationService.Net := fun req =>
  match req with
  | .validate _ _ => .ok { sucesso := false, mensagem := "contrato invalido" }
  | _ => .ok { sucesso := true, mensagem := "ok" }

/-- A partner that accepts everything. -/
def netAllOk : CpcValidationService.Net :=
  fun _ => .ok { sucesso := true, mensagem := "ok" }

/-- A network on which every call fails with an HTTP 500 whose body
carries a mensagem. -/
def netAllFail : CpcValidationService.Net :=
  fun _ => .fail (.response 500 (some "falha"))

/-- A stored contact whose name is marked manual. -/
def cFix : Contact :=
  { id := 1, phone := "5511999999999", name := some "Bob",
    cpf := some "12345678900", segment := some 1, isCPC := false,
    lastCPCAt := none, isNameManual := true, createdAt := 5 }

/-- A conversation still holding the placeholder name. -/
def cvUnknown : Conversation :=
  { id := 1, contactPhone := "5511999999999", contactName := "Desconhecido" }

/-- A conversation with a differently-sourced name. -/
def cvNamed : Conversation :=
  { id := 2, contactPhone := "5511999999999", contactName := "Maria" }

/-- A store with one contact and two of its conversations. -/
def dbFix : Db :=
  { contacts := [cFix], conversations := [cvUnknown, cvNamed], nextId := 2 }

/-- A patch that only sets the CPC flag. -/
def dtoCpcTrue : UpdateContactDto :=
  { name := none, cpf := none, segment := none, isCPC := some true }

/-- A patch renaming the contact. -/
def dtoZed : UpdateContactDto :=
  { name := some "Zed", cpf := none, segment := none, isCPC := none }

/-- A patch renaming the contact and setting the CPC flag. -/
def dtoAnaCpc : UpdateContactDto :=
  { name := some "Ana", cpf := none, segment := none, isCPC := some true }

/-- A create input that collides with `cFix`'s phone. -/
def createAna : CreateContactDto :=
  { phone := "5511999999999", name := some "Ana", cpf := none, segment := none }

/-- Expected result of `updateByPhone dbFix _ dtoCpcTrue 42`. -/
def c4Out : Contact × Db :=
  ({ cFix with isCPC := true, lastCPCAt := some 42 },
   { dbFix with contacts := [{ cFix with isCPC := true, lastCPCAt := some 42 }] })

/-- Expected result of `updateByPhone dbFix _ dtoAnaCpc 42`. -/
def c6Out : Contact × Db :=
  ({ cFix with name := some "Ana", isCPC := true, lastCPCAt := some 42 },
   { dbFix with
       contacts :=
         [{ cFix with name := some "Ana", isCPC := true, lastCPCAt := some 42 }],
       conversations := [{ cvUnknown with contactName := "Ana" },
                         { cvNamed with contactName := "Ana" }] })

/-- A store with no contacts but two conversations for the phone — the
fresh-create branch of the upsert. -/
def dbFresh : Db :=
  { contacts := [], conversations := [cvUnknown, cvNamed], nextId := 1 }

/-- Expected result of `update dbFix 1 dtoZed`. -/
def c7OutB : Contact × Db :=
  ({ cFix with name := some "Zed" },
   { dbFix with
       contacts := [{ cFix with name := some "Zed" }],
       conversations := [{ cvUnknown with contactName := "Zed" },
                         { cvNamed with contactName := "Zed" }] })

/-! Helper lemmas (shared). -/

open CpcValidationService

/-- Every request a `validateContract` call issues is its own GET. -/
theorem mem_validateContract_trace {cfg : Config} {net : Net}
    {contract segment : String} {phone : Option String} {r : CpcRequest}
    (hr : r ∈ (validateContract cfg net contract segment phone).2) :
    r = validateReq cfg contract segment phone := by
  cases h : isEnabled cfg with
  | true => simp [validateContract, h] at hr; exact hr
  | false => simp [validateContract, h] at hr

/-- Every request a `checkAcionamento` call issues is its own GET. -/
theorem mem_checkAcionamento_trace {cfg : Config} {net : Net}
    {contract phone segment : String} {r : CpcRequest}
    (hr : r ∈ (checkAcionamento cfg net contract phone segment).2) :
    r = checkReq cfg contract phone segment := by
  cases h : isEnabled cfg with
  | true => simp [checkAcionamento, h] at hr; exact hr
  | false => simp [checkAcionamento, h] at hr

/-- C1: with the gate enabled, `canContact` issues the validate-contract
call first; when it reports `sucesso = false` the result is not-allowed
with its `mensagem` and no check-acionamento request is issued; otherwise
the check-acionamento call decides (its `mensagem` on failure, the fixed
confirmation reason on success); no register-acionamento request is ever
issued by `canContact`. -/
theorem canContact_orchestration (cfg : Config) (net : Net)
    (contract phone segment : String) (h : isEnabled cfg = true) :
    ((canContact cfg net contract phone segment).2
        = (validateContract cfg net contract segment (some phone)).2
          ++ (if (validateContract cfg net contract segment (some phone)).1.sucesso
              then (checkAcionamento cfg net contract phone segment).2 else []))
    ∧ ((validateContract cfg net contract segment (some phone)).1.sucesso = false →
        (canContact cfg net contract phone segment).1
          = { allowed := false,
              reason := (validateContract cfg net contract segment (some phone)).1.mensagem }
        ∧ ∀ r ∈ (canContact cfg net contract phone segment).2, r.isCheck = false)
    ∧ ((validateContract cfg net contract segment (some phone)).1.sucesso = true →
        (checkAcionamento cfg net contract phone segment).1.sucesso = false →
        (canContact cfg net contract phone segment).1
          = { allowed := false,
              reason := (checkAcionamento cfg net contract phone segment).1.mensagem })
    ∧ ((validateContract cfg net contract segment (some phone)).1.sucesso = true →
        (checkAcionamento cfg net contract phone segment).1.sucesso = true →
        (canContact cfg net contract phone segment).1
          = { allowed := true, reason := "Cliente pode ser acionado" })
    ∧ (∀ r ∈ (canContact cfg net contract phone segment).2, r.isRegister = false) := by
  refine ⟨?_, ?_, ?_, ?_, ?_⟩
  · cases hV : (validateContract cfg net contract segment (some phone)).1.sucesso <;>
      cases hA : (checkAcionamento cfg net contract phone segment).1.sucesso <;>
      simp [canContact, h, hV, hA]
  · intro hV
    refine ⟨by simp [canContact, h, hV], ?_⟩
    intro r hr
    simp [canContact, h, hV] at hr
    rw [mem_validateContract_trace hr]
    rfl
  · intro hV hA
    simp [canContact, h, hV, hA]
  · intro hV hA
    simp [canContact, h, hV, hA]
  · intro r hr
    cases hV : (validateContract cfg net contract segment (some phone)).1.sucesso <;>
      simp [canContact, h, hV] at hr
    · rw [mem_validateContract_trace hr]; rfl
    · cases hA : (checkAcionamento cfg net contract phone segment).1.sucesso <;>
        simp [hA] at hr <;>
        rcases hr with hr | hr
      · rw [mem_validateContract_trace hr]; rfl
      · rw [mem_checkAcionamento_trace hr]; rfl
      · rw [mem_validateContract_trace hr]; rfl
      · rw [mem_checkAcionamento_trace hr]; rfl

/-- Witness for C1 at a concrete gate, network and arguments. -/
theorem canContact_orchestration_witness :
    (canContact cfgLive netDenyContract "C" "5511999999999" "S").1
      = { allowed := false,
          reason := (validateContract cfgLive netDenyContract "C" "S"
              (some "5511999999999")).1.mensagem }
    ∧ ∀ r ∈ (canContact cfgLive netDenyContract "C" "5511999999999" "S").2,
        r.isCheck = false :=
  (canContact_orchestration cfgLive netDenyContract "C" "5511999999999" "S"
      (by decide)).2.1 (by decide)

/-- C2: with the gate enabled, any failing network call is normalized by
`handleApiError` into a `{sucesso := false, mensagem}` value — never an
exception: an error-status response yields the partner's truthy `mensagem`
when it has one and otherwise a generic message carrying the status; a
no-response failure yields the fixed timeout message; a local
request-construction error yields the internal-error message with the
detail. This holds for all three raw operations. -/
theorem rawCall_failures_normalized (cfg : Config) (net : Net)
    (contract segment phone : String) (phoneOpt : Option String)
    (e : ApiFailure) (h : isEnabled cfg = true) :
    (net (validateReq cfg contract segment phoneOpt) = .fail e →
        (validateContract cfg net contract segment phoneOpt).1 = handleApiError e)
    ∧ (net (checkReq cfg contract phone segment) = .fail e →
        (checkAcionamento cfg net contract phone segment).1 = handleApiError e)
    ∧ (net (registerReq cfg contract phone segment) = .fail e →
        (registerAcionamento cfg net contract phone segment).1 = handleApiError e)
    ∧ (handleApiError e).sucesso = false
    ∧ (∀ st m, e = .response st (some m) → m ≠ "" → (handleApiError e).mensagem = m)
    ∧ (∀ st, e = .response st none ∨ e = .response st (some "") →
        (handleApiError e).mensagem = "Erro na API: " ++ toString st)
    ∧ (e = .request → (handleApiError e).mensagem = "API CPC indisponível - timeout")
    ∧ (∀ m, e = .config m → (handleApiError e).mensagem = "Erro interno: " ++ m) := by
  refine ⟨?_, ?_, ?_, ?_, ?_, ?_, ?_, ?_⟩
  · intro hnet; simp [validateContract, h, hnet]
  · intro hnet; simp [checkAcionamento, h, hnet]
  · intro hnet; simp [registerAcionamento, h, hnet]
  · cases e <;> simp [handleApiError]
  · rintro st m rfl hm; simp [handleApiError, hm]
  · rintro st (rfl | rfl) <;> simp [handleApiError]
  · rintro rfl; rfl
  · rintro m rfl; rfl

/-- Witness for C2: a concrete 500 response with a body message. -/
theorem rawCall_failures_normalized_witness :
    (validateContract cfgLive netAllFail "C" "S" (some "11")).1
        = handleApiError (.response 500 (some "falha"))
    ∧ (handleApiError (.response 500 (some "falha"))).sucesso = false :=
  ⟨(rawCall_failures_normalized cfgLive netAllFail "C" "S" "11" (some "11")
      (.response 500 (some "falha")) (by decide)).1 rfl,
   (rawCall_failures_normalized cfgLive netAllFail "C" "S" "11" (some "11")
      (.response 500 (some "falha")) (by decide)).2.2.2.1⟩

/-- C3: when the enabled flag is false or no base URL is configured, all
four gate operations return the permissive default immediately with an
empty request trace. -/
theorem gate_disabled_short_circuit (cfg : Config) (net : Net)
    (contract segment phone : String) (phoneOpt : Option String)
    (h : cfg.enabled = false ∨ cfg.apiUrl = "") :
    validateContract cfg net contract segment phoneOpt
        = ({ sucesso := true, mensagem := "CPC API desabilitada" }, [])
    ∧ checkAcionamento cfg net contract phone segment
        = ({ sucesso := true, mensagem := "CPC API desabilitada" }, [])
    ∧ registerAcionamento cfg net contract phone segment
        = ({ sucesso := true, mensagem := "CPC API desabilitada" }, [])
    ∧ canContact cfg net contract phone segment
        = ({ allowed := true, reason := "CPC API desabilitada" }, []) := by
  have hE : isEnabled cfg = false := by
    rcases h with h | h <;> simp [isEnabled, h]
  refine ⟨?_, ?_, ?_, ?_⟩ <;>
    simp [validateContract, checkAcionamento, registerAcionamento, canContact, hE]

/-- Witness for C3: the enabled flag off, an all-accepting network. -/
theorem gate_disabled_short_circuit_witness :
    canContact cfgOff netAllOk "C" "11" "S"
        = ({ allowed := true, reason := "CPC API desabilitada" }, [])
    ∧ validateContract cfgOff netAllOk "C" "S" (some "11")
        = ({ sucesso := true, mensagem := "CPC API desabilitada" }, []) :=
  ⟨(gate_disabled_short_circuit cfgOff netAllOk "C" "S" "11" (some "11")
      (Or.inl rfl)).2.2.2,
   (gate_disabled_short_circuit cfgOff netAllOk "C" "S" "11" (some "11")
      (Or.inl rfl)).1⟩

/-- C9: an empty-string phone behaves exactly like an absent phone in
`validateContract`, and the query built for it carries no `telefone`
parameter. -/
theorem validateContract_empty_phone (cfg : Config) (net : Net)
    (contract segment : String) :
    validateContract cfg net contract segment (some "")
        = validateContract cfg net contract segment none
    ∧ (validateQuery contract segment (some "")).all
        (fun kv => kv.1 != "telefone") = true :=
  ⟨rfl, rfl⟩

/-- Prefix-"55" test on character lists, characterized. -/
theorem isPrefixOf55 (l : List Char) :
    (List.isPrefixOf ['5', '5'] l = true) ↔ ∃ t, l = '5' :: '5' :: t := by
  cases l with
  | nil =>
    constructor
    · intro hp; simp [List.isPrefixOf_cons₂] at hp
    · rintro ⟨t, ht⟩; simp at ht
  | cons a t =>
    cases t with
    | nil =>
      constructor
      · intro hp; simp [List.isPrefixOf_cons₂] at hp
      · rintro ⟨t, ht⟩; simp at ht
    | cons b u =>
      have hred : List.isPrefixOf ['5', '5'] (a :: b :: u)
          = (('5' == a) && ('5' == b)) := by
        rw [List.isPrefixOf_cons₂, List.isPrefixOf_cons₂,
          List.isPrefixOf_nil_left, Bool.and_true]
      rw [hred]
      constructor
      · intro hp
        obtain ⟨h1, h2⟩ := Bool.and_eq_true_iff.mp hp
        exact ⟨u, by rw [← eq_of_beq h1, ← eq_of_beq h2]⟩
      · rintro ⟨t, ht⟩
        injection ht with h1 ht'
        injection ht' with h2 ht''
        subst h1; subst h2; decide

/-- JS `startsWith "55"`, characterized on the string's characters. -/
theorem startsWith55_iff (s : String) :
    jsStartsWith s "55" = true ↔ ∃ t, s.toList = '5' :: '5' :: t :=
  isPrefixOf55 s.toList

/-- The character list of a cleaned phone string. -/
theorem cleanPhoneStr_toList (p : String) :
    (cleanPhoneStr p).toList = p.toList.filter Char.isDigit := rfl

/-- Cleaning a string of digits leaves it unchanged. -/
theorem cleanPhoneStr_mk_of_digits (l : List Char)
    (hl : ∀ c ∈ l, c.isDigit = true) :
    cleanPhoneStr (String.mk l) = String.mk l := by
  show String.mk (l.filter Char.isDigit) = String.mk l
  rw [List.filter_eq_self.mpr hl]

/-- Characters of a cleaned phone are digits. -/
theorem digits_of_mem_clean {p : String} {c : Char}
    (hc : c ∈ (cleanPhoneStr p).toList) : c.isDigit = true := by
  rw [cleanPhoneStr_toList] at hc
  exact List.of_mem_filter hc

/-- The cleaning pass is idempotent. -/
theorem clean_clean (p : String) :
    cleanPhoneStr (cleanPhoneStr p) = cleanPhoneStr p :=
  cleanPhoneStr_mk_of_digits (cleanPhoneStr p).toList
    (fun _ hc => digits_of_mem_clean hc)

/-- Cleaning after dropping two leading digits changes nothing. -/
theorem clean_drop2 (p : String) :
    cleanPhoneStr (String.mk ((cleanPhoneStr p).toList.drop 2))
      = String.mk ((cleanPhoneStr p).toList.drop 2) :=
  cleanPhoneStr_mk_of_digits _
    (fun _ hc => digits_of_mem_clean (List.drop_subset _ _ hc))

/-- `formatPhoneForPartner`, written over the cleaned string. -/
theorem formatPhone_eq (p : String) :
    formatPhoneForPartner p =
      if jsStartsWith (cleanPhoneStr p) "55" = true ∧ (cleanPhoneStr p).length > 11
      then String.mk ((cleanPhoneStr p).toList.drop 2)
      else cleanPhoneStr p := rfl

/-- C5 counterexample: on a 14-digit number starting with "5555" the
normalization is not idempotent — a second pass strips another "55". -/
theorem formatPhone_not_idempotent_cex :
    formatPhoneForPartner (formatPhoneForPartner "55551111111111")
      ≠ formatPhoneForPartner "55551111111111" := by decide

/-- C5 (amended): normalization is idempotent for every phone whose
digit-cleaned form does not both start with "5555" and have more than 13
digits (on those inputs a second pass strips a second "55"). -/
theorem formatPhone_idempotent_amended (p : String)
    (h : ¬(jsStartsWith (cleanPhoneStr p) "5555" = true
            ∧ (cleanPhoneStr p).length > 13)) :
    formatPhoneForPartner (formatPhoneForPartner p) = formatPhoneForPartner p := by
  by_cases hc : jsStartsWith (cleanPhoneStr p) "55" = true ∧ (cleanPhoneStr p).length > 11
  · rw [formatPhone_eq p, if_pos hc, formatPhone_eq, clean_drop2, if_neg]
    rintro ⟨h55, hlen⟩
    apply h
    obtain ⟨t, ht⟩ := (startsWith55_iff _).mp hc.1
    obtain ⟨t', ht'⟩ := (startsWith55_iff _).mp h55
    have hd : (cleanPhoneStr p).toList.drop 2 = '5' :: '5' :: t' := ht'
    have hfull : (cleanPhoneStr p).toList = '5' :: '5' :: '5' :: '5' :: t' := by
      rw [ht] at hd
      simp only [List.drop_succ_cons, List.drop_zero] at hd
      rw [ht, hd]
    constructor
    · show List.isPrefixOf "5555".toList (cleanPhoneStr p).toList = true
      rw [show "5555".toList = ['5', '5', '5', '5'] from by decide, hfull]
      simp [List.isPrefixOf_cons₂]
    · show (cleanPhoneStr p).toList.length > 13
      have hlen' : ((cleanPhoneStr p).toList.drop 2).length > 11 := hlen
      rw [hfull] at hlen' ⊢
      simp only [List.length_cons, List.drop_succ_cons, List.drop_zero] at hlen' ⊢
      omega
  · rw [formatPhone_eq p, if_neg hc, formatPhone_eq, clean_clean, if_neg hc]

/-- Witness for the amended C5 at a 13-digit "55"-prefixed phone. -/
theorem formatPhone_idempotent_amended_witness :
    ¬(jsStartsWith (cleanPhoneStr "5511999999999") "5555" = true
        ∧ (cleanPhoneStr "5511999999999").length > 13)
    ∧ formatPhoneForPartner (formatPhoneForPartner "5511999999999")
        = formatPhoneForPartner "5511999999999" :=
  ⟨by decide, formatPhone_idempotent_amended "5511999999999" (by decide)⟩

/-- Updating the row that was looked up keeps its patched image in the
store. -/
theorem mem_contactUpdate_self {db : Db} {c : Contact} (p : ContactPatch)
    (hmem : c ∈ db.contacts) :
    applyPatch p c ∈ (contactUpdate db c.id p).contacts := by
  have hfc : (fun x => if x.id == c.id then applyPatch p x else x) c
      = applyPatch p c := by simp
  exact List.mem_map.mpr ⟨c, hmem, hfc⟩

/-- C4 counterexample: the by-id `update` path applies a patch setting
`isCPC := true` verbatim — the flag flips while `lastCPCAt` stays `none`,
so the flag/timestamp pair is not updated atomically by every operation. -/
theorem update_cpc_pair_cex :
    ContactsService.update dbFix 1 dtoCpcTrue
        = .ok ({ cFix with isCPC := true },
               { dbFix with contacts := [{ cFix with isCPC := true }] })
    ∧ cFix.isCPC = false
    ∧ ({ cFix with isCPC := true } : Contact).isCPC = true
    ∧ ({ cFix with isCPC := true } : Contact).lastCPCAt = none := by decide

/-- C4 (amended): on the `updateByPhone` path the pair is atomic: a patch
with `isCPC = true` stamps `lastCPCAt := now`, with `isCPC = false` clears
it to null, and a patch without `isCPC` leaves both fields unchanged. The
by-id `update` path applies the patch verbatim and gives no such pairing. -/
theorem updateByPhone_cpc_pair_atomic (db : Db) (phone : String)
    (dto : UpdateContactDto) (now : Nat) (c : Contact) (out : Contact × Db)
    (hc : ContactsService.findByPhone db phone = some c)
    (h : ContactsService.updateByPhone db phone dto now = .ok out) :
    (dto.isCPC = some true → out.1.isCPC = true ∧ out.1.lastCPCAt = some now)
    ∧ (dto.isCPC = some false → out.1.isCPC = false ∧ out.1.lastCPCAt = none)
    ∧ (dto.isCPC = none → out.1.isCPC = c.isCPC ∧ out.1.lastCPCAt = c.lastCPCAt) := by
  simp only [ContactsService.updateByPhone, hc, Except.ok.injEq] at h
  subst h
  refine ⟨?_, ?_, ?_⟩ <;> intro hcpc <;>
    rcases hdn : dto.name with _ | n
  · simp [hcpc, hdn, applyPatch, updatePatch]
  · by_cases hnc : c.name = some n <;> simp [hcpc, hdn, hnc, applyPatch, updatePatch]
  · simp [hcpc, hdn, applyPatch, updatePatch]
  · by_cases hnc : c.name = some n <;> simp [hcpc, hdn, hnc, applyPatch, updatePatch]
  · simp [hcpc, hdn, applyPatch, updatePatch]
  · by_cases hnc : c.name = some n <;> simp [hcpc, hdn, hnc, applyPatch, updatePatch]

/-- Witness for the amended C4 at a concrete store and patch. -/
theorem updateByPhone_cpc_pair_atomic_witness :
    dtoCpcTrue.isCPC = some true
    ∧ (c4Out.1.isCPC = true ∧ c4Out.1.lastCPCAt = some 42) :=
  ⟨rfl,
   (updateByPhone_cpc_pair_atomic dbFix "5511999999999" dtoCpcTrue 42 cFix c4Out
      (by decide) (by decide)).1 rfl⟩

/-- C6: for an existing contact found by phone, `updateByPhone` stamps
`lastCPCAt` with the current tick when the patch sets `isCPC = true`,
clears it to null when the patch sets `isCPC = false`, marks
`isNameManual` when the patch carries a name different from the stored
one (persisting the new name), and the updated row is persisted in the
store. -/
theorem updateByPhone_derived_fields (db : Db) (phone : String)
    (dto : UpdateContactDto) (now : Nat) (c : Contact) (out : Contact × Db)
    (hc : ContactsService.findByPhone db phone = some c)
    (h : ContactsService.updateByPhone db phone dto now = .ok out) :
    (dto.isCPC = some true → out.1.lastCPCAt = some now)
    ∧ (dto.isCPC = some false → out.1.lastCPCAt = none)
    ∧ (∀ n, dto.name = some n → c.name ≠ some n →
        out.1.isNameManual = true ∧ out.1.name = some n)
    ∧ out.1 ∈ out.2.contacts := by
  simp only [ContactsService.updateByPhone, hc, Except.ok.injEq] at h
  subst h
  have hmem : c ∈ db.contacts := List.mem_of_find?_eq_some hc
  refine ⟨?_, ?_, ?_, ?_⟩
  · intro hcpc
    rcases hdn : dto.name with _ | n
    · simp [hcpc, hdn, applyPatch, updatePatch]
    · by_cases hnc : c.name = some n <;>
        simp [hcpc, hdn, hnc, applyPatch, updatePatch]
  · intro hcpc
    rcases hdn : dto.name with _ | n
    · simp [hcpc, hdn, applyPatch, updatePatch]
    · by_cases hnc : c.name = some n <;>
        simp [hcpc, hdn, hnc, applyPatch, updatePatch]
  · intro n hdn hnc
    rcases hcpc : dto.isCPC with _ | b
    · simp [hcpc, hdn, hnc, applyPatch, updatePatch]
    · cases b <;> simp [hcpc, hdn, hnc, applyPatch, updatePatch]
  · rcases hdn : dto.name with _ | n
    · rcases hcpc : dto.isCPC with _ | b
      · simpa [hdn, hcpc, contactUpdate] using
          mem_contactUpdate_self _ hmem
      · cases b <;>
          simpa [hdn, hcpc, contactUpdate] using
            mem_contactUpdate_self _ hmem
    · by_cases hnc : c.name = some n
      · rcases hcpc : dto.isCPC with _ | b
        · simpa [hdn, hcpc, hnc, contactUpdate] using
            mem_contactUpdate_self _ hmem
        · cases b <;>
            simpa [hdn, hcpc, hnc, contactUpdate] using
              mem_contactUpdate_self _ hmem
      · rcases hcpc : dto.isCPC with _ | b
        · simpa [hdn, hcpc, hnc, contactUpdate] using
            mem_contactUpdate_self _ hmem
        · cases b <;>
            simpa [hdn, hcpc, hnc, contactUpdate] using
              mem_contactUpdate_self _ hmem

/-- Witness for C6 at a concrete store, with a CPC-setting, renaming patch. -/
theorem updateByPhone_derived_fields_witness :
    c6Out.1.lastCPCAt = some 42
    ∧ (c6Out.1.isNameManual = true ∧ c6Out.1.name = some "Ana")
    ∧ c6Out.1 ∈ c6Out.2.contacts :=
  ⟨(updateByPhone_derived_fields dbFix "5511999999999" dtoAnaCpc 42 cFix c6Out
      (by decide) (by decide)).1 rfl,
   (updateByPhone_derived_fields dbFix "5511999999999" dtoAnaCpc 42 cFix c6Out
      (by decide) (by decide)).2.2.1 "Ana" rfl (by decide),
   (updateByPhone_derived_fields dbFix "5511999999999" dtoAnaCpc 42 cFix c6Out
      (by decide) (by decide)).2.2.2⟩

/-- C7: name propagation differs by path. Create/upsert with a non-blank
name — whether it merges into an existing row or inserts a fresh one —
rewrites `contactName` only on that phone's conversations currently
holding the placeholder "Desconhecido", leaving differently-named
conversations untouched; the explicit by-id update path rewrites every
conversation sharing the contact's phone unconditionally when the name
changes. -/
theorem conversation_name_propagation :
    (∀ (db : Db) (dto : CreateContactDto) (now : Nat) (n : String),
        dto.name = some n → n ≠ "" → jsTrim n ≠ "" →
        ((ContactsService.create db dto now).2.conversations
            = db.conversations.map (fun cv =>
                if cv.contactPhone == dto.phone && cv.contactName == "Desconhecido"
                then { cv with contactName := n } else cv)
          ∧ ∀ cv ∈ db.conversations, cv.contactName ≠ "Desconhecido" →
              cv ∈ (ContactsService.create db dto now).2.conversations))
    ∧ (∀ (db : Db) (id : Nat) (dto : UpdateContactDto) (c : Contact)
          (out : Contact × Db) (n : String),
        contactFindById db id = some c →
        ContactsService.update db id dto = .ok out →
        dto.name = some n → c.name ≠ some n →
        out.2.conversations
          = db.conversations.map (fun cv =>
              if cv.contactPhone == c.phone
              then { cv with contactName := n } else cv)) := by
  constructor
  · intro db dto now n hn hne htrim
    have hmap : (ContactsService.create db dto now).2.conversations
        = db.conversations.map (fun cv =>
            if cv.contactPhone == dto.phone && cv.contactName == "Desconhecido"
            then { cv with contactName := n } else cv) := by
      rcases hex : contactFindUnique db dto.phone with _ | ex
      · simp [ContactsService.create, hex, hn, hne, htrim,
          conversationUpdateMany, contactUpdate]
      · have hex' : List.find? (fun c => c.phone == dto.phone) db.contacts
            = some ex := hex
        have hb := List.find?_some hex'
        have hph : ex.phone = dto.phone := by simpa using hb
        simp [ContactsService.create, hex, hn, hne, htrim,
          conversationUpdateMany, contactUpdate, hph]
    refine ⟨hmap, ?_⟩
    intro cv hcv hname
    rw [hmap]
    have hfix : (if cv.contactPhone == dto.phone && cv.contactName == "Desconhecido"
        then { cv with contactName := n } else cv) = cv := by
      simp [hname]
    exact List.mem_map.mpr ⟨cv, hcv, hfix⟩
  · intro db id dto c out n hcid h hn hnc
    simp only [ContactsService.update, hcid, Except.ok.injEq] at h
    subst h
    simp [hn, hnc, conversationUpdateMany, contactUpdate]

/-- Witness for C7: concrete create runs over both branches (an upsert
into `dbFix` and a fresh insert into `dbFresh`) and a concrete update. -/
theorem conversation_name_propagation_witness :
    ((ContactsService.create dbFix createAna 9).2.conversations
        = dbFix.conversations.map (fun cv =>
            if cv.contactPhone == createAna.phone && cv.contactName == "Desconhecido"
            then { cv with contactName := "Ana" } else cv))
    ∧ ((ContactsService.create dbFresh createAna 9).2.conversations
        = dbFresh.conversations.map (fun cv =>
            if cv.contactPhone == createAna.phone && cv.contactName == "Desconhecido"
            then { cv with contactName := "Ana" } else cv))
    ∧ c7OutB.2.conversations
        = dbFix.conversations.map (fun cv =>
            if cv.contactPhone == cFix.phone
            then { cv with contactName := "Zed" } else cv) :=
  ⟨(conversation_name_propagation.1 dbFix createAna 9 "Ana" rfl
      (by decide) (by decide)).1,
   (conversation_name_propagation.1 dbFresh createAna 9 "Ana" rfl
      (by decide) (by decide)).1,
   conversation_name_propagation.2 dbFix 1 dtoZed cFix c7OutB "Zed" (by decide)
      (by decide) rfl (by decide)⟩

/-- C8 counterexample: a provided segment filter of 0 is falsy in the
spread `...(segment && { segment })`, so no segment condition is built —
`findAll` with segment 0 returns a contact whose segment is 1. -/
theorem findAll_segment_zero_cex :
    ContactsService.findAll dbFix none (some 0) = [cFix]
    ∧ cFix.segment ≠ some 0 := by decide

/-- C8 (amended): `findAll` returns exactly the stored contacts matching
the built where-clause, sorted by creation time newest first, and an
empty filter returns every contact; a non-zero provided segment filters
by exact equality, but a segment of 0 (like an empty search string) is
treated as an absent filter. -/
theorem findAll_amended (db : Db) (search : Option String) (segment : Option Int) :
    (∀ c, c ∈ ContactsService.findAll db search segment ↔
        c ∈ db.contacts ∧ ContactsService.findAllWhere search segment c = true)
    ∧ List.Sorted ContactsService.createdDesc (ContactsService.findAll db search segment)
    ∧ (ContactsService.findAll db none none).Perm db.contacts
    ∧ (∀ c z, segment = some z → z ≠ 0 →
        c ∈ ContactsService.findAll db search segment → c.segment = some z) := by
  have hmem : ∀ c, c ∈ ContactsService.findAll db search segment ↔
      c ∈ db.contacts ∧ ContactsService.findAllWhere search segment c = true := by
    intro c
    rw [ContactsService.findAll,
      (List.perm_insertionSort ContactsService.createdDesc _).mem_iff]
    exact List.mem_filter
  refine ⟨hmem, ?_, ?_, ?_⟩
  · exact List.sorted_insertionSort _ _
  · have hfilter : List.filter (ContactsService.findAllWhere none none) db.contacts
        = db.contacts :=
      List.filter_eq_self.mpr (fun _ _ => rfl)
    rw [ContactsService.findAll, hfilter]
    exact List.perm_insertionSort _ _
  · intro c z hz hz0 hc
    subst hz
    obtain ⟨-, hmatch⟩ := (hmem c).mp hc
    simp only [ContactsService.findAllWhere] at hmatch
    have h2 := (Bool.and_eq_true_iff.mp hmatch).2
    simp [hz0] at h2
    exact h2

/-- Witness for the amended C8: the membership characterization at a
concrete store and search filter. -/
theorem findAll_amended_witness :
    cFix ∈ ContactsService.findAll dbFix (some "bo") none ↔
      cFix ∈ dbFix.contacts
        ∧ ContactsService.findAllWhere (some "bo") none cFix = true :=
  (findAll_amended dbFix (some "bo") none).1 cFix

/-- C10: the upsert path of `create` overwrites every provided field of an
existing contact even when its `isNameManual` flag is set — the flag does
not block the automated merge — and persists the updated row. -/
theorem create_overwrites_manual_name (db : Db) (dto : CreateContactDto)
    (now : Nat) (ex : Contact) (n : String)
    (hex : contactFindUnique db dto.phone = some ex)
    (_hman : ex.isNameManual = true) (hn : dto.name = some n) :
    (ContactsService.create db dto now).1.name = some n
    ∧ (∀ x, dto.cpf = some x → (ContactsService.create db dto now).1.cpf = some x)
    ∧ (∀ z, dto.segment = some z →
        (ContactsService.create db dto now).1.segment = some z)
    ∧ (ContactsService.create db dto now).1
        ∈ (ContactsService.create db dto now).2.contacts := by
  have hres : (ContactsService.create db dto now).1
      = applyPatch (createPatch dto) ex := by
    simp [ContactsService.create, hex]
  have hcontacts : (ContactsService.create db dto now).2.contacts
      = (contactUpdate db ex.id (createPatch dto)).contacts := by
    rcases hdn : dto.name with _ | m
    · simp [ContactsService.create, hex, hdn]
    · by_cases hb : m ≠ "" ∧ jsTrim m ≠ "" <;>
        simp [ContactsService.create, hex, hdn, hb]
  have hmem : ex ∈ db.contacts := List.mem_of_find?_eq_some hex
  refine ⟨?_, ?_, ?_, ?_⟩
  · rw [hres]; simp [applyPatch, createPatch, hn]
  · intro x hx; rw [hres]; simp [applyPatch, createPatch, hx]
  · intro z hz; rw [hres]; simp [applyPatch, createPatch, hz]
  · rw [hres, hcontacts]
    exact mem_contactUpdate_self _ hmem

/-- Witness for C10: `cFix` has a manual name yet the upsert renames it. -/
theorem create_overwrites_manual_name_witness :
    cFix.isNameManual = true
    ∧ (ContactsService.create dbFix createAna 9).1.name = some "Ana"
    ∧ (ContactsService.create dbFix createAna 9).1
        ∈ (ContactsService.create dbFix createAna 9).2.contacts :=
  ⟨rfl,
   (create_overwrites_manual_name dbFix createAna 9 cFix "Ana" (by decide) rfl rfl).1,
   (create_overwrites_manual_name dbFix createAna 9 cFix "Ana" (by decide) rfl rfl).2.2.2⟩
